import Mathlib

/-!
Verification of the Raspberry Pi telemetry backend (`main.py`, `backend.py`)
against its natural-language specification.

The Python source is shallowly embedded: the SQLite tables become lists of
records, each endpoint handler becomes a pure function from the database
state (plus request data) to a result record carrying the HTTP status, the
committed database state, the sequence of WebSocket broadcasts and the image
files written to disk.  Fallible steps (file writes, SQL statements) are
driven by an explicit failure-point parameter; an exception in the Python
`try` block is modelled by returning a 500 outcome with the uncommitted
SQLite transaction rolled back (the connection is closed without `commit`).
-/

namespace Backend

/-! ### String primitives

Python string operations are modelled over the character data of `String`
(a Python `str` is a sequence of code points), so that every definition
evaluates by kernel reduction. -/

/-- Python `p + s`-style prefix test `s.startswith(p)`. -/
def strStartswith (p s : String) : Bool :=
  List.isPrefixOf p.data s.data

/-- Lexicographic comparison of character sequences by code point.  SQLite's
default `BINARY` collation compares the UTF-8 bytes; on the ASCII date
strings involved here, code-point order and byte order coincide. -/
def charsLe : List Char → List Char → Bool
  | [], _ => true
  | _ :: _, [] => false
  | a :: as, b :: bs =>
    if a.toNat < b.toNat then true
    else if b.toNat < a.toNat then false
    else charsLe as bs

/-- SQLite text `a <= b` under the `BINARY` collation. -/
def sqliteTextLe (a b : String) : Bool :=
  charsLe a.data b.data

/-! ### Observer registry (`ConnectionManager`, main.py lines 34-59)

An observer (WebSocket connection) is an element of an arbitrary type with
decidable equality; the registry is the Python list `active_connections`.
`send_text` is modelled by an oracle telling, for each connection, whether
the send succeeds, raises `RuntimeError` (closed channel) or raises some
other exception. -/

/-- Outcome of `connection.send_text(message)` for one connection. -/
inductive SendResult where
  | ok
  | runtimeError
  | otherError
  deriving DecidableEq, Repr

/-- One step of the CPython `for connection in self.active_connections:` loop
of `ConnectionManager.broadcast` (main.py lines 50-59).  The list iterator
keeps a cursor `i` into the (mutable) list and fetches `conns[i]` as long as
`i` is in range.  On `RuntimeError` the body executes
`self.active_connections.remove(connection)`, which deletes the first
occurrence of the element from the very list being iterated; on any other
exception the body only logs.  The fuel argument only bounds the number of
loop iterations: the cursor grows by one per step and the list never grows,
so `conns.length` steps always suffice. -/
def broadcastLoop [DecidableEq α] (send : α → SendResult) :
    Nat → List α → Nat → List α → List α × List α
  | 0, conns, _, delivered => (conns, delivered)
  | fuel + 1, conns, i, delivered =>
    if h : i < conns.length then
      match send conns[i] with
      | SendResult.ok => broadcastLoop send fuel conns (i + 1) (delivered ++ [conns[i]])
      | SendResult.runtimeError =>
          broadcastLoop send fuel (conns.erase conns[i]) (i + 1) delivered
      | SendResult.otherError => broadcastLoop send fuel conns (i + 1) delivered
    else (conns, delivered)

/-- `ConnectionManager.broadcast(message)`: returns the registry contents
after the loop together with the list of connections that received the
message, in delivery order. -/
def broadcast [DecidableEq α] (send : α → SendResult) (conns : List α) :
    List α × List α :=
  broadcastLoop send conns.length conns 0 []

/-- Python exceptions surfaced by the registry model. -/
inductive PyError where
  | valueError
  deriving DecidableEq, Repr

/-- `ConnectionManager.disconnect(websocket)` (main.py lines 43-45):
`self.active_connections.remove(websocket)`.  Python `list.remove` deletes
the first occurrence of the element and raises `ValueError` when the element
is not present. -/
def disconnect [DecidableEq α] (ws : α) (conns : List α) :
    Except PyError (List α) :=
  if ws ∈ conns then Except.ok (conns.erase ws) else Except.error PyError.valueError

/-- The send oracle of the C1 scenario: observer `0` has a closed channel
(`send_text` raises `RuntimeError`), observers `1` and `2` are live. -/
def sendClosed0 : Nat → SendResult :=
  fun c => if c = 0 then SendResult.runtimeError else SendResult.ok

/-! ### The SQLite database (`raspberry_data.db`)

Two tables (`init_db`, main.py lines 65-108): `detections`, an append-only
log, and `raspberry_info`, the device directory.  Each table is a list of
records, in insertion order.  `REAL` columns become `ℚ`; nullable sensor
readings become `Option ℚ`.  `DATE(timestamp)` of an ISO-8601 timestamp is
its date prefix; the model stores that date directly in the `date` field
(ISO dates compare bytewise in SQLite exactly as `String` order here).
The `id` / `created_at` columns and the image columns not used by any
endpoint under verification are not modelled. -/

/-- One row of the `detections` table. -/
structure Detection where
  raspberry_id : String
  /-- `DATE(timestamp)` of the capture timestamp, ISO format. -/
  date : String
  detection_count : Int
  temperature : Option ℚ
  humidity : Option ℚ
  image_filename : String
  image_url : String
  deriving DecidableEq, Repr

/-- One row of the `raspberry_info` table (primary key `raspberry_id`). -/
structure Device where
  raspberry_id : String
  name : String
  location : String
  latitude : ℚ
  longitude : ℚ
  last_seen : String
  status : String
  deriving DecidableEq, Repr

/-- The whole database state. -/
structure DB where
  raspberry_info : List Device
  detections : List Detection
  deriving DecidableEq, Repr

/-- The empty database. -/
def emptyDB : DB := { raspberry_info := [], detections := [] }

/-- Kinds of WebSocket messages the server broadcasts (`type` field of the
JSON payloads in main.py). -/
inductive MsgType where
  | initial_data
  | new_detection
  | locations_update
  | stats_update
  deriving DecidableEq, Repr

/-! ### Administrative delete (`delete_data`, main.py lines 386-459) -/

/-- Result of a call to the delete endpoint: HTTP status, committed database
and broadcast sequence. -/
structure DeleteOutcome where
  status : Nat
  db : DB
  broadcasts : List MsgType
  deriving DecidableEq, Repr

/-- `DELETE /api/delete-data` (main.py lines 386-459).  After the admin-key
gate, the branches are checked in source order: first
`if start_date and end_date:` (delete detections whose
`DATE(timestamp) BETWEEN start_date AND end_date`, inclusive), then
`elif raspberry_id:` (delete that device's detections and its
`raspberry_info` row), else delete everything.  `None` models an absent
(or, by Python truthiness, empty-string) query parameter.  Each successful
branch commits and then broadcasts a `locations_update` and a
`stats_update`. -/
def delete_data (admin_key : String) (raspberry_id : Option String)
    (start_date end_date : Option String) (db : DB) : DeleteOutcome :=
  if admin_key ≠ "SECRET123" then
    { status := 403, db := db, broadcasts := [] }
  else
    match start_date, end_date with
    | some s, some e =>
      { status := 200
        db := { db with
                detections := db.detections.filter
                  (fun d => !(sqliteTextLe s d.date && sqliteTextLe d.date e)) }
        broadcasts := [MsgType.locations_update, MsgType.stats_update] }
    | _, _ =>
      match raspberry_id with
      | some rid =>
        { status := 200
          db := { raspberry_info :=
                    db.raspberry_info.filter (fun r => !(r.raspberry_id == rid))
                  detections :=
                    db.detections.filter (fun d => !(d.raspberry_id == rid)) }
          broadcasts := [MsgType.locations_update, MsgType.stats_update] }
      | none =>
        { status := 200
          db := emptyDB
          broadcasts := [MsgType.locations_update, MsgType.stats_update] }

/-! ### Fleet statistics (`get_statistics_data`, main.py lines 316-350;
`get_statistics`, backend.py lines 234-270 — the two variants run the same
queries over `detections`) -/

/-- `SELECT AVG(col) FROM detections WHERE col IS NOT NULL`: SQL `AVG`
returns `NULL` on an empty set of rows, else the arithmetic mean. -/
def sqlAvg (vals : List ℚ) : Option ℚ :=
  if vals.isEmpty then none else some (vals.sum / vals.length)

/-- Floor of a rational: the numerator floor-divided by the (positive)
denominator. -/
def ratFloor (q : ℚ) : ℤ :=
  q.num.fdiv (q.den : ℤ)

/-- Python `round(x, 2)`: round half to even at two decimal places. -/
def pyRound2 (q : ℚ) : ℚ :=
  let s : ℚ := q * 100
  let fl : ℤ := ratFloor s
  let r : ℤ :=
    if s - (fl : ℚ) < 1 / 2 then fl
    else if (1 : ℚ) / 2 < s - (fl : ℚ) then fl + 1
    else if fl % 2 = 0 then fl else fl + 1
  (r : ℚ) / 100

/-- The fields of the `/api/statistics` response.  The per-device breakdown
`detections_by_pi` is not modelled (no claim concerns it). -/
structure Stats where
  total_detections : Nat
  active_raspberries : Nat
  avg_temperature : ℚ
  avg_humidity : ℚ
  deriving DecidableEq, Repr

/-- `get_statistics_data()` (main.py lines 316-350): row count, distinct
contributing devices, and the two averages.  `AVG ... WHERE col IS NOT NULL`
averages exactly the non-null values; Python's `fetchone()[0] or 0` maps the
`NULL` of an empty set to `0`, and the result is passed through
`round(_, 2)`. -/
def get_statistics_data (db : DB) : Stats :=
  { total_detections := db.detections.length
    active_raspberries := (db.detections.map (fun d => d.raspberry_id)).dedup.length
    avg_temperature :=
      pyRound2 ((sqlAvg (db.detections.filterMap (fun d => d.temperature))).getD 0)
    avg_humidity :=
      pyRound2 ((sqlAvg (db.detections.filterMap (fun d => d.humidity))).getD 0) }

/-! ### Fleet summary totals (`get_raspberry_locations_data`, main.py lines
250-267, versus `get_raspberry_locations`, backend.py lines 172-192)

Both queries `LEFT JOIN detections d ON r.raspberry_id = d.raspberry_id`
and `GROUP BY r.raspberry_id`.  main.py aggregates
`SUM(d.detection_count) as total_detections`; SQL `SUM` over a group with no
joined detection rows is `NULL`.  backend.py aggregates
`COUNT(d.id) as total_detections`; `COUNT` of the all-`NULL` `d.id` of an
unmatched left join is `0`. -/

/-- `total_detections` reported for device `rid` by main.py's summary:
`SUM(d.detection_count)` over its detections, `NULL` if it has none. -/
def mainTotalDetections (db : DB) (rid : String) : Option Int :=
  let ds := db.detections.filter (fun d => d.raspberry_id == rid)
  if ds.isEmpty then none else some (ds.map (fun d => d.detection_count)).sum

/-- `total_detections` reported for device `rid` by backend.py's summary:
`COUNT(d.id)`, the number of its detection rows. -/
def backendTotalDetections (db : DB) (rid : String) : Nat :=
  (db.detections.filter (fun d => d.raspberry_id == rid)).length

/-! ### Ingestion (`receive_raspberry_data`)

The multipart form fields of `POST /api/raspberry-data`, plus the two pieces
of the uploaded file's metadata the handler inspects. -/

/-- An inbound report. -/
structure Report where
  raspberry_id : String
  name : String
  location : String
  detection_count : Int
  temperature : ℚ
  humidity : ℚ
  latitude : ℚ
  longitude : ℚ
  /-- `image.content_type` of the uploaded file. -/
  image_content_type : String
  /-- `image.filename` of the uploaded file. -/
  image_filename : String
  deriving DecidableEq, Repr

/-- Steps of the handler that can raise: writing the image file, and the
three SQL statements of the transaction.  `failAt = some p` makes step `p`
raise if and when it executes; `none` is the failure-free run. -/
inductive FailPoint where
  | saveImage
  | insertInfo
  | insertDetection
  | updateInfo
  deriving DecidableEq, Repr

/-- Result of an ingestion call: HTTP status (200, or 500 for any exception
caught by the handler's `except` — including the re-raised validation
`HTTPException`), the committed database, the broadcasts sent during the
call in order, and the image files written to disk. -/
structure IngestOutcome where
  status : Nat
  db : DB
  broadcasts : List MsgType
  saved_images : List String
  deriving DecidableEq, Repr

/-- File extension chosen for the upload (main.py line 145):
`image.filename.split('.')[-1] if '.' in image.filename else 'jpg'`. -/
def imageExtension (fn : String) : String :=
  if fn.data.contains '.' then
    String.mk (fn.data.reverse.takeWhile (fun c => !(c == '.'))).reverse
  else "jpg"

/-- The unique image filename `{raspberry_id}_{timestamp}.{ext}`
(main.py line 146); `now` stands for the formatted timestamp. -/
def mkImageFilename (req : Report) (now : String) : String :=
  req.raspberry_id ++ "_" ++ now ++ "." ++ imageExtension req.image_filename

/-- `BASE_URL` fallback and the public URL of the stored image
(main.py lines 155-156). -/
def mkImageUrl (filename : String) : String :=
  "http://localhost:8000" ++ "/images/" ++ filename

/-- The `detections` row inserted by main.py lines 184-199.  All form fields
are required, so the nullable sensor columns are inserted non-null.  The
model of the raw `INSERT INTO detections` — the Store's `recordDetection` —
appends unconditionally: the schema declares no foreign key, so SQLite
accepts the row whether or not a `raspberry_info` row with this
`raspberry_id` exists. -/
def mkDetection (req : Report) (now : String) (filename : String) : Detection :=
  { raspberry_id := req.raspberry_id
    date := now
    detection_count := req.detection_count
    temperature := some req.temperature
    humidity := some req.humidity
    image_filename := filename
    image_url := mkImageUrl filename }

/-- `INSERT INTO detections` (main.py lines 184-199): unconditional append;
no device-existence check of any kind. -/
def insertDetection (d : Detection) (db : DB) : DB :=
  { db with detections := db.detections ++ [d] }

/-- `SELECT COUNT(*) FROM raspberry_info WHERE raspberry_id = ?`
(main.py line 163). -/
def deviceCount (rid : String) (db : DB) : Nat :=
  (db.raspberry_info.filter (fun r => r.raspberry_id == rid)).length

/-- `INSERT INTO raspberry_info` for a previously unseen device
(main.py lines 165-176): status is set to `"online"`. -/
def insertDevice (req : Report) (now : String) (db : DB) : DB :=
  { db with raspberry_info := db.raspberry_info ++
      [{ raspberry_id := req.raspberry_id
         name := req.name
         location := req.location
         latitude := req.latitude
         longitude := req.longitude
         last_seen := now
         status := "online" }] }

/-- Effect of the `UPDATE raspberry_info SET last_seen = ?, latitude = ?,
longitude = ?, location = ?, status = 'online' WHERE raspberry_id = ?`
statement (main.py lines 202-206) on one row. -/
def updateDeviceRow (req : Report) (now : String) (r : Device) : Device :=
  if r.raspberry_id = req.raspberry_id then
    { r with last_seen := now, latitude := req.latitude,
             longitude := req.longitude, location := req.location,
             status := "online" }
  else r

/-- The same `UPDATE` over the whole table. -/
def updateDeviceInfo (req : Report) (now : String) (db : DB) : DB :=
  { db with raspberry_info := db.raspberry_info.map (updateDeviceRow req now) }

/-- Tail of the main.py handler, after the image write and the new-device
check: the detection `INSERT` (line 184), the device `UPDATE` (line 202),
`commit` (line 208), then the three post-commit broadcasts (lines 216-234)
appended after any broadcast `pre` already sent earlier in the call.  A
failure rolls back the staged transaction — the outcome keeps the
pre-transaction database `origDb` — but the broadcasts already sent stay
sent. -/
def ingestTail (req : Report) (now : String) (failAt : Option FailPoint)
    (origDb : DB) (pre : List MsgType) (filename : String) (staged : DB) :
    IngestOutcome :=
  if failAt = some FailPoint.insertDetection then
    { status := 500, db := origDb, broadcasts := pre, saved_images := [filename] }
  else if failAt = some FailPoint.updateInfo then
    { status := 500, db := origDb, broadcasts := pre, saved_images := [filename] }
  else
    { status := 200
      db := updateDeviceInfo req now
        (insertDetection (mkDetection req now filename) staged)
      broadcasts := pre ++
        [MsgType.new_detection, MsgType.locations_update, MsgType.stats_update]
      saved_images := [filename] }

/-- `POST /api/raspberry-data` (main.py lines 126-247).  In source order:
validate `image.content_type.startswith('image/')` (the raised 400
`HTTPException` is caught by the handler's own `except Exception` and
re-raised as a 500); write the image file; `SELECT COUNT(*)` for the device;
if absent, `INSERT` the `raspberry_info` row and immediately broadcast a
`locations_update` (lines 177-181) — before the detection is inserted and
before anything is committed; then the shared tail. -/
def receive_raspberry_data (req : Report) (now : String)
    (failAt : Option FailPoint) (db : DB) : IngestOutcome :=
  if strStartswith "image/" req.image_content_type then
    if failAt = some FailPoint.saveImage then
      { status := 500, db := db, broadcasts := [], saved_images := [] }
    else
      let filename := mkImageFilename req now
      if deviceCount req.raspberry_id db = 0 then
        if failAt = some FailPoint.insertInfo then
          { status := 500, db := db, broadcasts := [], saved_images := [filename] }
        else
          ingestTail req now failAt db [MsgType.locations_update] filename
            (insertDevice req now db)
      else
        ingestTail req now failAt db [] filename db
  else
    { status := 500, db := db, broadcasts := [], saved_images := [] }

/-! ### The backend.py ingestion variant (`receive_raspberry_data`,
backend.py lines 96-170)

backend.py's `detections` table (its `init_db`, lines 35-50) has the columns
below — `confidence` is present, `image_path` is not.  Its detection
`INSERT` (lines 133-148) names an `image_path` column, so SQLite raises
`OperationalError` for that statement.  Column names are modelled
explicitly to capture this. -/

/-- Columns of the `detections` table created by backend.py's `init_db`. -/
def backendDetectionsColumns : List String :=
  ["id", "raspberry_id", "timestamp", "detection_count", "temperature",
   "humidity", "latitude", "longitude", "image_filename", "image_url",
   "confidence", "created_at"]

/-- Columns named by backend.py's detection `INSERT` (lines 133-137). -/
def backendInsertColumns : List String :=
  ["raspberry_id", "timestamp", "detection_count", "temperature", "humidity",
   "latitude", "longitude", "image_path", "confidence"]

/-- An `INSERT` succeeds only when every column it names exists in the
table's schema; otherwise SQLite raises
`OperationalError: table has no column named ...`. -/
def insertColumnsOk (schema cols : List String) : Bool :=
  cols.all (fun c => schema.contains c)

/-- `UPDATE raspberry_info SET last_seen = ?, latitude = ?, longitude = ?
WHERE raspberry_id = ?` (backend.py lines 150-154) on one row — unlike
main.py it touches neither `location` nor `status`. -/
def backendUpdateDeviceRow (req : Report) (now : String) (r : Device) : Device :=
  if r.raspberry_id = req.raspberry_id then
    { r with last_seen := now, latitude := req.latitude, longitude := req.longitude }
  else r

/-- Result of a backend.py ingestion call (backend.py has no WebSockets, so
no broadcasts). -/
structure BackendOutcome where
  status : Nat
  db : DB
  saved_images : List String
  deriving DecidableEq, Repr

/-- `POST /api/raspberry-data` of backend.py (lines 96-170).  In source
order: validate the content type (the 400 is caught by the handler's own
`except` and re-raised as 500); write the image file to disk; run the
detection `INSERT` — whose column list is checked against the schema: on a
mismatch SQLite raises, the `except` returns 500, and the connection closes
without `commit`, rolling the transaction back, while the image file stays
on disk.  In the (schema-dependent) branch where the `INSERT` is accepted,
the row binds `image_path := image_url` (the shared `Detection` record
stores that value in `image_url` and leaves the never-inserted
`image_filename` empty; the `confidence` column is not modelled), the
device row is updated and the transaction commits.  backend.py has no
device upsert: the `INSERT` runs whether or not the device exists. -/
def backend_receive_raspberry_data (req : Report) (now : String) (db : DB) :
    BackendOutcome :=
  if strStartswith "image/" req.image_content_type then
    let filename := mkImageFilename req now
    if insertColumnsOk backendDetectionsColumns backendInsertColumns then
      let det : Detection :=
        { raspberry_id := req.raspberry_id
          date := now
          detection_count := req.detection_count
          temperature := some req.temperature
          humidity := some req.humidity
          image_filename := ""
          image_url := mkImageUrl filename }
      { status := 200
        db := { raspberry_info :=
                  db.raspberry_info.map (backendUpdateDeviceRow req now)
                detections := db.detections ++ [det] }
        saved_images := [filename] }
    else
      { status := 500, db := db, saved_images := [filename] }
  else
    { status := 500, db := db, saved_images := [] }

/-! ### Store ownership invariant (for the `recordDetection` claim) -/

/-- Every Detection row is owned by an existing Device row. -/
def DBinv (db : DB) : Prop :=
  ∀ d ∈ db.detections, ∃ r ∈ db.raspberry_info, r.raspberry_id = d.raspberry_id

/-! ### Concrete sample data used by counterexamples and witnesses -/

/-- A sample registered device. -/
def devA : Device :=
  { raspberry_id := "RPI_A", name := "Pi A", location := "Lima",
    latitude := -12, longitude := -77, last_seen := "2024-05-31T10:00:00",
    status := "online" }

/-- A sample detection of `devA`, captured 2024-06-01, `detection_count 1`. -/
def detA : Detection :=
  { raspberry_id := "RPI_A", date := "2024-06-01", detection_count := 1,
    temperature := some 20, humidity := some 50,
    image_filename := "a.jpg", image_url := "http://localhost:8000/images/a.jpg" }

/-- Database holding `devA` with its single detection `detA`. -/
def dbA : DB := { raspberry_info := [devA], detections := [detA] }

/-- Database holding `devA` with no detections. -/
def dbNoDet : DB := { raspberry_info := [devA], detections := [] }

/-- A detection of `devA` with `detection_count 0`. -/
def detCount0 : Detection := { detA with detection_count := 0 }

/-- A detection of `devA` with `detection_count 2`. -/
def detCount2 : Detection := { detA with detection_count := 2 }

/-- A detection of `devA` with `detection_count 5`. -/
def detCount5 : Detection := { detA with detection_count := 5 }

/-- `devA` with two detections whose counts are `0` and `2`: their sum (2)
equals their number (2) although neither count is `1`. -/
def dbCounts02 : DB := { raspberry_info := [devA], detections := [detCount0, detCount2] }

/-- `devA` with one detection of count `5`. -/
def dbCount5 : DB := { raspberry_info := [devA], detections := [detCount5] }

/-- A detection with a `NULL` temperature and a `NULL` humidity. -/
def detNull : Detection :=
  { detA with temperature := none, humidity := none }

/-- Store state with temperatures `{20.0, NULL, 22.0}`. -/
def dbTemps : DB :=
  { raspberry_info := [devA]
    detections := [detA, detNull, { detA with temperature := some 22 }] }

/-- A well-formed inbound report for device `RPI_A` with an image payload. -/
def reqA : Report :=
  { raspberry_id := "RPI_A", name := "Pi A", location := "Lima",
    detection_count := 3, temperature := 20, humidity := 50,
    latitude := -12, longitude := -77,
    image_content_type := "image/jpeg", image_filename := "photo.jpg" }

/-- The same report carrying a non-image artifact. -/
def reqBad : Report := { reqA with image_content_type := "text/plain" }

/-! ## Theorems -/

/-- C1: Broadcasting to the registry `[0, 1, 2]` when observer `0`'s channel
is closed removes `0` and leaves the registry at the expected `N − 1 = 2`
observers, but the message is delivered only to observer `2`: removing the
failed connection from `active_connections` mid-iteration shifts the list
under the live iterator, which then skips the still-live observer `1`.
This contradicts the specified property that the remaining `N − 1`
observers all receive the message (delivery may not skip a live
observer). -/
theorem broadcast_closed_channel_skips_live_observer :
    broadcast sendClosed0 [0, 1, 2] = ([1, 2], [2])
    ∧ (1 : Nat) ∉ (broadcast sendClosed0 [0, 1, 2]).2 := by
  decide

/-- C2 (counterexample): supplying both the identity `RPI_A` and the
complete date range `[2024-01-01, 2024-12-31]` does not delete the device:
the date-range branch runs instead, deleting `detA` (in range) and leaving
the `raspberry_info` row in place — the claim required the Device and all
its Detections to be removed by the identity branch. -/
theorem delete_with_both_filters_keeps_device :
    (delete_data "SECRET123" (some "RPI_A") (some "2024-01-01")
        (some "2024-12-31") dbA).db
      = { raspberry_info := [devA], detections := [] }
    ∧ devA ∈ (delete_data "SECRET123" (some "RPI_A") (some "2024-01-01")
        (some "2024-12-31") dbA).db.raspberry_info := by
  decide

/-- C2 (amended): when both an identity and a complete date range are
supplied, the date-range filter takes precedence — the call behaves exactly
as if no identity had been passed, and the identity branch is never
applied. -/
theorem delete_both_filters_date_range_precedence :
    ∀ (db : DB) (rid s e : String),
      delete_data "SECRET123" (some rid) (some s) (some e) db
        = delete_data "SECRET123" none (some s) (some e) db :=
  fun _ _ _ _ => rfl

/-- C6: the three delete modes.  (1) By inclusive date range: device rows
are untouched and exactly the detections whose capture date lies in
`[s, e]` (SQLite `BETWEEN`, inclusive) are removed.  (2) By identity: the
device row with that identity and exactly its detections are removed.
(3) No filter: both tables are emptied. -/
theorem delete_data_three_modes :
    (∀ (db : DB) (s e : String),
      (delete_data "SECRET123" none (some s) (some e) db).db.raspberry_info
          = db.raspberry_info
      ∧ ∀ d : Detection,
          d ∈ (delete_data "SECRET123" none (some s) (some e) db).db.detections ↔
            d ∈ db.detections
            ∧ ¬(sqliteTextLe s d.date = true ∧ sqliteTextLe d.date e = true))
    ∧ (∀ (db : DB) (rid : String),
      (∀ r : Device,
          r ∈ (delete_data "SECRET123" (some rid) none none db).db.raspberry_info ↔
            r ∈ db.raspberry_info ∧ r.raspberry_id ≠ rid)
      ∧ ∀ d : Detection,
          d ∈ (delete_data "SECRET123" (some rid) none none db).db.detections ↔
            d ∈ db.detections ∧ d.raspberry_id ≠ rid)
    ∧ (∀ db : DB, (delete_data "SECRET123" none none none db).db = emptyDB) := by
  refine ⟨fun db s e => ⟨rfl, fun d => ?_⟩,
          fun db rid => ⟨fun r => ?_, fun d => ?_⟩,
          fun db => rfl⟩
  · cases hA : sqliteTextLe s d.date <;> cases hB : sqliteTextLe d.date e <;>
      simp [delete_data, List.mem_filter, hA, hB]
  · simp [delete_data, List.mem_filter]
  · simp [delete_data, List.mem_filter]

/-- C8 (counterexample): `disconnect` is not idempotent.  Removing observer
`0` from the registry `[0]` succeeds, but removing it a second time — or
calling `disconnect` on any observer not in the registry — raises
`ValueError` instead of succeeding and leaving the registry unchanged. -/
theorem disconnect_twice_raises :
    disconnect (0 : Nat) [0] = Except.ok []
    ∧ disconnect (0 : Nat) [] = Except.error PyError.valueError :=
  ⟨rfl, rfl⟩

/-- C8 (amended): `disconnect` removes the first occurrence of a present
observer, but called with an observer that is not (or is no longer) in the
registry it raises `ValueError` (Python `list.remove`); in particular, after
removing an observer that occurred once, a second `disconnect` of the same
observer raises rather than being a no-op. -/
theorem disconnect_not_idempotent :
    (∀ (α : Type) [DecidableEq α] (ws : α) (conns : List α), ws ∉ conns →
        disconnect ws conns = Except.error PyError.valueError)
    ∧ (∀ (α : Type) [DecidableEq α] (ws : α) (conns : List α),
        conns.count ws = 1 →
          disconnect ws conns = Except.ok (conns.erase ws)
          ∧ disconnect ws (conns.erase ws) = Except.error PyError.valueError) := by
  constructor
  · intro α _ ws conns h
    simp [disconnect, h]
  · intro α _ ws conns h
    have hmem : ws ∈ conns := by
      have hpos : 0 < conns.count ws := by omega
      exact List.count_pos_iff.mp hpos
    have hnot : ws ∉ conns.erase ws := by
      have h2 : (conns.erase ws).count ws = 0 := by
        rw [List.count_erase_self]
        omega
      exact List.count_eq_zero.mp h2
    exact ⟨by simp [disconnect, hmem], by simp [disconnect, hnot]⟩

/-- Witness for the amended C8 theorem at concrete registries. -/
theorem disconnect_not_idempotent_witness :
    disconnect (1 : Nat) [2] = Except.error PyError.valueError
    ∧ (disconnect (1 : Nat) [1] = Except.ok ([1].erase 1)
       ∧ disconnect (1 : Nat) ([1].erase 1) = Except.error PyError.valueError) :=
  ⟨disconnect_not_idempotent.1 Nat 1 [2] (by decide),
   disconnect_not_idempotent.2 Nat 1 [1] (by decide)⟩

/-- `pyRound2` is the identity on integer-valued rationals. -/
theorem pyRound2_intCast (n : ℤ) : pyRound2 ((n : ℤ) : ℚ) = (n : ℚ) := by
  have hcast : ((n : ℤ) : ℚ) * 100 = ((n * 100 : ℤ) : ℚ) := by push_cast; ring
  have hfl : ratFloor (((n * 100 : ℤ) : ℚ)) = n * 100 := by
    rw [ratFloor, Rat.num_intCast, Rat.den_intCast]
    simp
  simp only [pyRound2, hcast, hfl]
  rw [if_pos (by rw [sub_self]; norm_num)]
  push_cast
  field_simp

/-- A list of detections whose counts are all `1` sums to its length. -/
theorem sum_counts_all_one (l : List Detection)
    (h : ∀ d ∈ l, d.detection_count = 1) :
    (l.map (fun d => d.detection_count)).sum = (l.length : ℤ) := by
  induction l with
  | nil => simp
  | cons a t ih =>
    have ha : a.detection_count = 1 := h a (List.mem_cons_self a t)
    have ht : ∀ d ∈ t, d.detection_count = 1 :=
      fun d hd => h d (List.mem_cons_of_mem a hd)
    simp [List.map_cons, List.sum_cons, ha, ih ht]
    ring

/-- C7: fleet-statistics averages are computed over the non-null readings
only — appending a detection with a `NULL` temperature (resp. humidity)
leaves the average temperature (resp. humidity) unchanged; when no non-null
reading exists the average is `0` rather than an error; and on the store
state with temperatures `{20.0, NULL, 22.0}` the average temperature is
`21.0`. -/
theorem statistics_averages_exclude_nulls :
    (∀ (db : DB) (d : Detection),
      (d.temperature = none →
        (get_statistics_data
            { db with detections := db.detections ++ [d] }).avg_temperature
          = (get_statistics_data db).avg_temperature)
      ∧ (d.humidity = none →
        (get_statistics_data
            { db with detections := db.detections ++ [d] }).avg_humidity
          = (get_statistics_data db).avg_humidity))
    ∧ (∀ db : DB, db.detections.filterMap (fun d => d.temperature) = [] →
        (get_statistics_data db).avg_temperature = 0)
    ∧ (∀ db : DB, db.detections.filterMap (fun d => d.humidity) = [] →
        (get_statistics_data db).avg_humidity = 0)
    ∧ (get_statistics_data dbTemps).avg_temperature = 21 := by
  refine ⟨fun db d => ⟨fun ht => ?_, fun hh => ?_⟩,
          fun db h => ?_, fun db h => ?_, ?_⟩
  · simp [get_statistics_data, List.filterMap_append, ht]
  · simp [get_statistics_data, List.filterMap_append, hh]
  · simp only [get_statistics_data, h, sqlAvg, List.isEmpty_nil, if_true,
      Option.getD_none]
    simpa using pyRound2_intCast 0
  · simp only [get_statistics_data, h, sqlAvg, List.isEmpty_nil, if_true,
      Option.getD_none]
    simpa using pyRound2_intCast 0
  · have hv : (sqlAvg (dbTemps.detections.filterMap
        (fun d => d.temperature))).getD 0 = 21 := by
      simp [dbTemps, detA, detNull, sqlAvg]
      norm_num
    simp only [get_statistics_data, hv]
    simpa using pyRound2_intCast 21

/-- Witness for C7 at concrete states: appending the null-temperature
detection `detNull` to `dbA` leaves the average temperature unchanged, and
the empty store yields average temperature `0`. -/
theorem statistics_averages_exclude_nulls_witness :
    (get_statistics_data
        { dbA with detections := dbA.detections ++ [detNull] }).avg_temperature
      = (get_statistics_data dbA).avg_temperature
    ∧ (get_statistics_data emptyDB).avg_temperature = 0 :=
  ⟨(statistics_averages_exclude_nulls.1 dbA detNull).1 rfl,
   statistics_averages_exclude_nulls.2.1 emptyDB rfl⟩

/-- C10 (counterexample): the device `RPI_A` of `dbCounts02` has two
detections with `detection_count` values `0` and `2`.  main.py's
`SUM(detection_count)` and backend.py's `COUNT(d.id)` both report `2`, so
the two variants agree although not every detection has
`detection_count = 1` — refuting the claim that they agree *only* in that
case. -/
theorem totals_agree_with_nonunit_counts :
    mainTotalDetections dbCounts02 "RPI_A"
      = some ((backendTotalDetections dbCounts02 "RPI_A" : Nat) : Int)
    ∧ ¬(∀ d ∈ dbCounts02.detections, d.detection_count = 1) := by
  decide

/-- C10 (amended): the two fleet-summary variants are not extensionally
equal — on `dbCount5` (one detection with count `5`) main.py reports `5`
while backend.py reports `1`; a device with no detections is reported as
`NULL` by main.py and `0` by backend.py; and the two agree whenever every
detection has `detection_count = 1` and the device has at least one
detection (though they can also agree otherwise). -/
theorem summary_totals_relationship :
    mainTotalDetections dbCount5 "RPI_A"
      ≠ some ((backendTotalDetections dbCount5 "RPI_A" : Nat) : Int)
    ∧ (∀ (db : DB) (rid : String),
        db.detections.filter (fun d => d.raspberry_id == rid) = [] →
          mainTotalDetections db rid = none
          ∧ backendTotalDetections db rid = 0)
    ∧ (∀ (db : DB) (rid : String),
        (∀ d ∈ db.detections, d.detection_count = 1) →
        db.detections.filter (fun d => d.raspberry_id == rid) ≠ [] →
          mainTotalDetections db rid
            = some ((backendTotalDetections db rid : Nat) : Int)) := by
  refine ⟨by decide, fun db rid h => ?_, fun db rid hall hne => ?_⟩
  · simp [mainTotalDetections, backendTotalDetections, h]
  · have hsub : ∀ d ∈ db.detections.filter (fun d => d.raspberry_id == rid),
        d.detection_count = 1 :=
      fun d hd => hall d (List.mem_of_mem_filter hd)
    simp [mainTotalDetections, backendTotalDetections,
      List.isEmpty_eq_false_iff_exists_mem.mpr
        (List.exists_mem_of_ne_nil _ hne),
      sum_counts_all_one _ hsub]

/-- Witness for the amended C10 theorem: the zero-detection device of
`dbNoDet` and the all-counts-one store `dbA`. -/
theorem summary_totals_relationship_witness :
    (mainTotalDetections dbNoDet "RPI_A" = none
     ∧ backendTotalDetections dbNoDet "RPI_A" = 0)
    ∧ mainTotalDetections dbA "RPI_A"
        = some ((backendTotalDetections dbA "RPI_A" : Nat) : Int) :=
  ⟨summary_totals_relationship.2.1 dbNoDet "RPI_A" (by decide),
   summary_totals_relationship.2.2 dbA "RPI_A" (by decide) (by decide)⟩

/-- `updateDeviceRow` never changes a row's primary key. -/
theorem updateDeviceRow_id (req : Report) (now : String) (r : Device) :
    (updateDeviceRow req now r).raspberry_id = r.raspberry_id := by
  unfold updateDeviceRow
  split <;> rfl

/-- A nonzero `SELECT COUNT(*)` result exhibits a matching device row. -/
theorem exists_device_of_count_ne_zero (rid : String) (db : DB)
    (h : deviceCount rid db ≠ 0) :
    ∃ r ∈ db.raspberry_info, r.raspberry_id = rid := by
  have hne : db.raspberry_info.filter (fun r => r.raspberry_id == rid) ≠ [] := by
    intro hnil
    exact h (by simp [deviceCount, hnil])
  obtain ⟨r, hr⟩ := List.exists_mem_of_ne_nil _ hne
  have hm := List.mem_filter.mp hr
  exact ⟨r, hm.1, by simpa using hm.2⟩

/-- The device `UPDATE` preserves the ownership invariant. -/
theorem DBinv_updateDeviceInfo (req : Report) (now : String) (db : DB)
    (h : DBinv db) : DBinv (updateDeviceInfo req now db) := by
  intro d hd
  simp only [updateDeviceInfo] at hd
  obtain ⟨r, hr, hrid⟩ := h d hd
  exact ⟨updateDeviceRow req now r, List.mem_map_of_mem _ hr,
         (updateDeviceRow_id req now r).trans hrid⟩

/-- Appending a device row preserves the ownership invariant. -/
theorem DBinv_insertDevice (req : Report) (now : String) (db : DB)
    (h : DBinv db) : DBinv (insertDevice req now db) := by
  intro d hd
  simp only [insertDevice] at hd
  obtain ⟨r, hr, hrid⟩ := h d hd
  exact ⟨r, List.mem_append_left _ hr, hrid⟩

/-- The raw detection `INSERT` preserves the ownership invariant provided
the inserted row's owner exists. -/
theorem DBinv_insertDetection (det : Detection) (db : DB) (h : DBinv db)
    (hdev : ∃ r ∈ db.raspberry_info, r.raspberry_id = det.raspberry_id) :
    DBinv (insertDetection det db) := by
  intro d hd
  simp only [insertDetection, List.mem_append, List.mem_singleton] at hd
  rcases hd with hmem | rfl
  · exact h d hmem
  · exact hdev

/-- The ingestion tail preserves the ownership invariant: failures keep the
pre-transaction state, and the committed state extends a staged state whose
device table contains the report's device. -/
theorem ingestTail_inv (req : Report) (now : String) (failAt : Option FailPoint)
    (origDb : DB) (pre : List MsgType) (filename : String) (staged : DB)
    (horig : DBinv origDb) (hstaged : DBinv staged)
    (hdev : ∃ r ∈ staged.raspberry_info, r.raspberry_id = req.raspberry_id) :
    DBinv (ingestTail req now failAt origDb pre filename staged).db := by
  by_cases h1 : failAt = some FailPoint.insertDetection
  · simpa [ingestTail, h1] using horig
  · by_cases h2 : failAt = some FailPoint.updateInfo
    · simpa [ingestTail, h1, h2] using horig
    · have hcommit : DBinv (updateDeviceInfo req now
          (insertDetection (mkDetection req now filename) staged)) :=
        DBinv_updateDeviceInfo req now _
          (DBinv_insertDetection (mkDetection req now filename) staged hstaged hdev)
      simpa [ingestTail, h1, h2] using hcommit

/-- C3 (counterexample): an ingestion for a previously-unseen device that
fails at the detection `INSERT` commits nothing (the transaction rolls
back), yet one `locations_update` broadcast was already sent — before the
detection insert and before any commit — so a non-committed call is not
broadcast-free. -/
theorem failed_ingestion_with_prior_broadcast :
    (receive_raspberry_data reqA "2024-06-01"
        (some FailPoint.insertDetection) emptyDB).broadcasts
      = [MsgType.locations_update]
    ∧ (receive_raspberry_data reqA "2024-06-01"
        (some FailPoint.insertDetection) emptyDB).status = 500
    ∧ (receive_raspberry_data reqA "2024-06-01"
        (some FailPoint.insertDetection) emptyDB).db = emptyDB :=
  ⟨rfl, rfl, rfl⟩

/-- C3 (amended): a validation-rejected call (non-image artifact) commits
no Store mutation, sends no broadcast and writes no image; a persistence
failure for an already-known device sends no broadcast and commits nothing;
but for a previously-unknown device a failure at the detection `INSERT` or
at the device `UPDATE` happens after one `locations_update` broadcast has
already been sent (the committed state is still rolled back). -/
theorem ingestion_no_commit_broadcast_profile :
    (∀ (req : Report) (now : String) (failAt : Option FailPoint) (db : DB),
        strStartswith "image/" req.image_content_type = false →
          receive_raspberry_data req now failAt db
            = { status := 500, db := db, broadcasts := [], saved_images := [] })
    ∧ (∀ (req : Report) (now : String) (fp : FailPoint) (db : DB),
        strStartswith "image/" req.image_content_type = true →
        deviceCount req.raspberry_id db ≠ 0 → fp ≠ FailPoint.insertInfo →
          (receive_raspberry_data req now (some fp) db).status = 500
          ∧ (receive_raspberry_data req now (some fp) db).db = db
          ∧ (receive_raspberry_data req now (some fp) db).broadcasts = [])
    ∧ (∀ (req : Report) (now : String) (fp : FailPoint) (db : DB),
        strStartswith "image/" req.image_content_type = true →
        deviceCount req.raspberry_id db = 0 →
        (fp = FailPoint.insertDetection ∨ fp = FailPoint.updateInfo) →
          (receive_raspberry_data req now (some fp) db).status = 500
          ∧ (receive_raspberry_data req now (some fp) db).db = db
          ∧ (receive_raspberry_data req now (some fp) db).broadcasts
              = [MsgType.locations_update]) := by
  refine ⟨fun req now failAt db h => ?_,
          fun req now fp db h hdc hfp => ?_,
          fun req now fp db h hdc hor => ?_⟩
  · simp [receive_raspberry_data, h]
  · cases fp
    case insertInfo => exact absurd rfl hfp
    all_goals simp [receive_raspberry_data, ingestTail, h, hdc]
  · rcases hor with rfl | rfl <;>
      simp [receive_raspberry_data, ingestTail, h, hdc]

/-- Witness for the amended C3 theorem at concrete calls. -/
theorem ingestion_no_commit_broadcast_profile_witness :
    receive_raspberry_data reqBad "2024-06-01" none emptyDB
      = { status := 500, db := emptyDB, broadcasts := [], saved_images := [] }
    ∧ (receive_raspberry_data reqA "2024-06-01"
        (some FailPoint.updateInfo) dbA).broadcasts = []
    ∧ (receive_raspberry_data reqA "2024-06-01"
        (some FailPoint.updateInfo) emptyDB).broadcasts
        = [MsgType.locations_update] :=
  ⟨ingestion_no_commit_broadcast_profile.1 reqBad "2024-06-01" none emptyDB rfl,
   (ingestion_no_commit_broadcast_profile.2.1 reqA "2024-06-01"
      FailPoint.updateInfo dbA rfl (by decide) (by decide)).2.2,
   (ingestion_no_commit_broadcast_profile.2.2 reqA "2024-06-01"
      FailPoint.updateInfo emptyDB rfl rfl (Or.inr rfl)).2.2⟩

/-- C4 (counterexample): an accepted ingestion for a previously-unseen
device broadcasts `locations_update` first (sent by the new-device branch),
then `new_detection`, `locations_update`, `stats_update` — so the point
"new detection" event is not the first broadcast of the call. -/
theorem new_device_broadcast_precedes_detection_event :
    (receive_raspberry_data reqA "2024-06-01" none emptyDB).broadcasts
      = [MsgType.locations_update, MsgType.new_detection,
         MsgType.locations_update, MsgType.stats_update]
    ∧ (receive_raspberry_data reqA "2024-06-01" none emptyDB).status = 200 :=
  ⟨rfl, rfl⟩

/-- C4 (amended): for an accepted ingestion whose device already exists the
broadcast order is exactly `new_detection`, `locations_update`,
`stats_update`; for a previously-unseen device one extra `locations_update`
precedes those three. -/
theorem accepted_ingestion_broadcast_order :
    (∀ (req : Report) (now : String) (db : DB),
        strStartswith "image/" req.image_content_type = true →
        deviceCount req.raspberry_id db ≠ 0 →
          (receive_raspberry_data req now none db).broadcasts
            = [MsgType.new_detection, MsgType.locations_update,
               MsgType.stats_update])
    ∧ (∀ (req : Report) (now : String) (db : DB),
        strStartswith "image/" req.image_content_type = true →
        deviceCount req.raspberry_id db = 0 →
          (receive_raspberry_data req now none db).broadcasts
            = [MsgType.locations_update, MsgType.new_detection,
               MsgType.locations_update, MsgType.stats_update]) := by
  constructor <;> intro req now db h hdc <;>
    simp [receive_raspberry_data, ingestTail, h, hdc]

/-- Witness for the amended C4 theorem at concrete calls. -/
theorem accepted_ingestion_broadcast_order_witness :
    (receive_raspberry_data reqA "2024-06-01" none dbA).broadcasts
      = [MsgType.new_detection, MsgType.locations_update, MsgType.stats_update]
    ∧ (receive_raspberry_data reqA "2024-06-01" none emptyDB).broadcasts
      = [MsgType.locations_update, MsgType.new_detection,
         MsgType.locations_update, MsgType.stats_update] :=
  ⟨accepted_ingestion_broadcast_order.1 reqA "2024-06-01" dbA rfl (by decide),
   accepted_ingestion_broadcast_order.2 reqA "2024-06-01" emptyDB rfl rfl⟩

/-- C5 (counterexample): the raw detection `INSERT` (`recordDetection`)
called on the empty store — where no Device row exists for the report's
identity — succeeds and creates the Detection row: it raises no
`ValidationError` and performs no device-existence check, leaving an
orphaned Detection. -/
theorem recordDetection_without_device_succeeds :
    (insertDetection (mkDetection reqA "2024-06-01" "a.jpg") emptyDB).detections
      = [mkDetection reqA "2024-06-01" "a.jpg"]
    ∧ (insertDetection (mkDetection reqA "2024-06-01" "a.jpg")
        emptyDB).raspberry_info = [] :=
  ⟨rfl, rfl⟩

/-- C5 (amended): the detection `INSERT` itself checks nothing, but
main.py's ingestion upserts the Device before inserting the Detection in
the same transaction, so the whole ingestion call preserves the invariant
that every Detection row is owned by an existing Device row (failures roll
the transaction back). -/
theorem ingestion_preserves_detection_ownership :
    ∀ (req : Report) (now : String) (failAt : Option FailPoint) (db : DB),
      DBinv db → DBinv (receive_raspberry_data req now failAt db).db := by
  intro req now failAt db hinv
  by_cases h : strStartswith "image/" req.image_content_type = true
  · by_cases hs : failAt = some FailPoint.saveImage
    · simpa [receive_raspberry_data, h, hs] using hinv
    · by_cases hdc : deviceCount req.raspberry_id db = 0
      · by_cases hi : failAt = some FailPoint.insertInfo
        · simpa [receive_raspberry_data, h, hs, hdc, hi] using hinv
        · have htail : DBinv (ingestTail req now failAt db
              [MsgType.locations_update] (mkImageFilename req now)
              (insertDevice req now db)).db :=
            ingestTail_inv req now failAt db [MsgType.locations_update]
              (mkImageFilename req now) (insertDevice req now db) hinv
              (DBinv_insertDevice req now db hinv)
              ⟨{ raspberry_id := req.raspberry_id, name := req.name,
                 location := req.location, latitude := req.latitude,
                 longitude := req.longitude, last_seen := now,
                 status := "online" },
               by simp [insertDevice], rfl⟩
          simpa [receive_raspberry_data, h, hs, hdc, hi] using htail
      · have htail : DBinv (ingestTail req now failAt db []
            (mkImageFilename req now) db).db :=
          ingestTail_inv req now failAt db [] (mkImageFilename req now) db
            hinv hinv (exists_device_of_count_ne_zero req.raspberry_id db hdc)
        simpa [receive_raspberry_data, h, hs, hdc] using htail
  · simpa [receive_raspberry_data, h] using hinv

/-- Witness for the amended C5 theorem: the accepted ingestion of `reqA`
into the empty store yields a state where every Detection is owned. -/
theorem ingestion_preserves_detection_ownership_witness :
    DBinv (receive_raspberry_data reqA "2024-06-01" none emptyDB).db :=
  ingestion_preserves_detection_ownership reqA "2024-06-01" none emptyDB
    (fun d hd => absurd hd (by simp [emptyDB]))

/-- C9: every backend.py ingestion that passes image validation fails with
HTTP 500: its detection `INSERT` names the `image_path` column, which the
`detections` table created by backend.py's own `init_db` does not have, so
SQLite raises `OperationalError` and the transaction rolls back — after the
image file has already been written to disk, leaving an orphaned
artifact. -/
theorem backend_ingestion_schema_mismatch :
    ∀ (req : Report) (now : String) (db : DB),
      strStartswith "image/" req.image_content_type = true →
        (backend_receive_raspberry_data req now db).status = 500
        ∧ (backend_receive_raspberry_data req now db).db = db
        ∧ (backend_receive_raspberry_data req now db).saved_images
            = [mkImageFilename req now] := by
  intro req now db h
  have hcols : insertColumnsOk backendDetectionsColumns backendInsertColumns
      = false := rfl
  simp [backend_receive_raspberry_data, h, hcols]

/-- Witness for C9 at a concrete valid-image ingestion. -/
theorem backend_ingestion_schema_mismatch_witness :
    (backend_receive_raspberry_data reqA "2024-06-01" emptyDB).status = 500
    ∧ (backend_receive_raspberry_data reqA "2024-06-01" emptyDB).db = emptyDB
    ∧ (backend_receive_raspberry_data reqA "2024-06-01" emptyDB).saved_images
        = [mkImageFilename reqA "2024-06-01"] :=
  backend_ingestion_schema_mismatch reqA "2024-06-01" emptyDB rfl

end Backend
